import Mathlib

/-!
Verification development for the vikunja-voice-assistant integration.

The Python sources are shallowly embedded below:
* string helpers mirror the Python `str` methods used by the code
  (`find`, `rfind`, slicing, `strip`, `rstrip`, `endswith`);
* `PyJson` models the values produced by `json.loads`; the parser itself is an
  external library, so it enters as an explicit function parameter
  `parse : String -> Option PyJson` (`none` models `json.JSONDecodeError`);
* `extract_json` embeds the response-extraction region of
  `process_with_openai.py` (lines 164-190);
* `handle_vikunja_task` and `intent_async_handle` embed the orchestrator in
  `__init__.py`; collaborator behaviours (project fetch, LLM call, task
  creation) are inputs, and the embedding additionally records which
  collaborators were invoked;
* the temporal-context and prompt-composition code of `process_with_openai.py`
  is embedded over an explicit `Instant` (the value of `datetime.now(utc)`);
* `normalize_vikunja_url` embeds the URL formatting of `config_flow.py`.
-/

namespace VVA

/-- Python whitespace characters relevant to `str.strip` (ASCII subset). -/
def isPySpace (c : Char) : Bool :=
  c == ' ' || c == '\t' || c == '\n' || c == '\x0d' || c == '\x0b' || c == '\x0c'

/-- `str.strip()`: drop leading and trailing whitespace. -/
def pyStrip (s : String) : String :=
  ⟨((s.data.dropWhile isPySpace).reverse.dropWhile isPySpace).reverse⟩

/-- `str.rstrip('/')`: drop trailing slashes. -/
def pyRstripSlash (s : String) : String :=
  ⟨(s.data.reverse.dropWhile (fun c => c == '/')).reverse⟩

/-- Does the first list start with the second?  (Mirrors a prefix test.) -/
def startsWithL : List Char → List Char → Bool
  | _, [] => true
  | [], _ :: _ => false
  | a :: as, b :: bs => a == b && startsWithL as bs

/-- `str.endswith(t)`: the reversed characters of `s` start with those of `t`. -/
def endsWithStr (s t : String) : Bool :=
  startsWithL s.data.reverse t.data.reverse

/-- Index of the first occurrence of `c`, accumulating from `i`; `-1` if absent. -/
def pyFindCharAux (c : Char) : List Char → Nat → Int
  | [], _ => -1
  | a :: as, i => if a == c then (i : Int) else pyFindCharAux c as (i + 1)

/-- `str.find(c)`: first index of `c`, or `-1`. -/
def pyFindChar (s : String) (c : Char) : Int :=
  pyFindCharAux c s.data 0

/-- `str.rfind(c)`: last index of `c`, or `-1`. -/
def pyRfindChar (s : String) (c : Char) : Int :=
  let j := pyFindCharAux c s.data.reverse 0
  if j < 0 then -1 else (s.data.length : Int) - 1 - j

/-- Clamp a Python slice index into `[0, n]` (negative indices count from the end). -/
def pyClampIndex (n : Nat) (i : Int) : Nat :=
  if i < 0 then (max 0 ((n : Int) + i)).toNat else min i.toNat n

/-- `s[a:b]` for integer indices, with Python's clamping semantics. -/
def pySlice (s : String) (a b : Int) : String :=
  let n := s.data.length
  let lo := pyClampIndex n a
  let hi := pyClampIndex n b
  ⟨(s.data.drop lo).take (hi - lo)⟩

/-- Tail-recursive core of the occurrence counter. -/
def countOccurAux (pat : List Char) : List Char → Nat → Nat
  | [], acc =>
    match startsWithL [] pat with
    | true => acc + 1
    | false => acc
  | c :: rest, acc =>
    match startsWithL (c :: rest) pat with
    | true => countOccurAux pat rest (acc + 1)
    | false => countOccurAux pat rest acc

/-- Number of (possibly overlapping) positions at which `pat` occurs in a list. -/
def countOccurL (pat s : List Char) : Nat :=
  countOccurAux pat s 0

/-- Occurrence count of `pat` inside `s`. -/
def countOccurS (pat s : String) : Nat :=
  countOccurL pat.data s.data

/-- Python `in` on strings: substring containment. -/
def containsSub (s pat : String) : Bool :=
  decide (0 < countOccurL pat.data s.data)

/-- Values produced by `json.loads`.  Numbers are modelled as integers: no
claim depends on fractional values, only on zero/non-zero truthiness. -/
inductive PyJson where
  | null : PyJson
  | bool : Bool → PyJson
  | num : Int → PyJson
  | str : String → PyJson
  | arr : List PyJson → PyJson
  | obj : List (String × PyJson) → PyJson

/-- Python truthiness of a JSON value (`not x` is its negation). -/
def pyTruthy : PyJson → Bool
  | .null => false
  | .bool b => b
  | .num n => n != 0
  | .str s => !(s == "")
  | .arr l => !l.isEmpty
  | .obj l => !l.isEmpty

/-- Python `k in j`.  `none` models the `TypeError` raised on numbers,
booleans and `None`; on dicts it is key membership, on lists element
equality with the string `k`, on strings substring containment. -/
def pyContainsKey (j : PyJson) (k : String) : Option Bool :=
  match j with
  | .obj l => some (l.any (fun p => p.1 == k))
  | .arr l => some (l.any (fun e => match e with | .str s => s == k | _ => false))
  | .str s => some (containsSub s k)
  | _ => none

/-- Python `j[k]` for a string key.  Only dicts support string subscripts;
`none` models the `TypeError` raised otherwise.  (Duplicate keys cannot
survive `json.loads`, so first-match lookup is adequate.) -/
def pyIndexKey (j : PyJson) (k : String) : Option PyJson :=
  match j with
  | .obj l => (l.find? (fun p => p.1 == k)).map (fun p => p.2)
  | _ => none

/-- Python `j.get(k)` with default `None`.  `none` models the
`AttributeError` raised when `j` is not a dict. -/
def pyDictGet (j : PyJson) (k : String) : Option PyJson :=
  match j with
  | .obj l => some ((l.find? (fun p => p.1 == k)).elim PyJson.null (fun p => p.2))
  | _ => none

/-- Python `str()` of a JSON value, as interpolated into the success message.
Container reprs are abbreviated: no claim inspects them. -/
def pyStr : PyJson → String
  | .str s => s
  | .num n => toString n
  | .bool true => "True"
  | .bool false => "False"
  | .null => "None"
  | .arr _ => "[...]"
  | .obj _ => "\x7b...\x7d"

/-! ## Temporal context (process_with_openai.py lines 14-21)

A UTC instant is the value of `datetime.now(timezone.utc)` split into a day
number (days since 1970-01-01) and wall-clock fields.  `timedelta(days=k)` on
a UTC-aware datetime shifts the day number only; `.replace(hour, minute,
second)` overwrites the clock fields.  Microseconds are dropped from the
model: `.replace` does not touch them and `strftime("%Y-%m-%dT%H:%M:%SZ")`
never prints them. -/

structure Instant where
  days : Nat
  hour : Nat
  minute : Nat
  second : Nat

/-- `t + timedelta(days=k)` for a UTC-aware datetime. -/
def addDays (t : Instant) (k : Nat) : Instant :=
  { t with days := t.days + k }

/-- `t.replace(hour=h, minute=m, second=s)`. -/
def replaceTime (t : Instant) (h m s : Nat) : Instant :=
  { t with hour := h, minute := m, second := s }

/-- Civil date (year, month, day) from a day count since 1970-01-01,
following the standard era-based Gregorian conversion. -/
def civilFromDays (z0 : Nat) : Nat × Nat × Nat :=
  let z := z0 + 719468
  let era := z / 146097
  let doe := z % 146097
  let yoe := (doe - doe / 1460 + doe / 36524 - doe / 146096) / 365
  let y := yoe + era * 400
  let doy := doe - (365 * yoe + yoe / 4 - yoe / 100)
  let mp := (5 * doy + 2) / 153
  let d := doy - (153 * mp + 2) / 5 + 1
  let m := if mp < 10 then mp + 3 else mp - 9
  (if m ≤ 2 then y + 1 else y, m, d)

/-- Zero-pad to two digits (`%m`, `%d`, `%H`, `%M`, `%S`). -/
def pad2 (n : Nat) : String :=
  if n < 10 then "0" ++ toString n else toString n

/-- Zero-pad to four digits (`%Y`). -/
def pad4 (n : Nat) : String :=
  if n < 10 then "000" ++ toString n
  else if n < 100 then "00" ++ toString n
  else if n < 1000 then "0" ++ toString n
  else toString n

/-- `strftime("%Y-%m-%d")` of the civil date of a day count. -/
def dateStr (days : Nat) : String :=
  match civilFromDays days with
  | (y, m, d) => pad4 y ++ "-" ++ pad2 m ++ "-" ++ pad2 d

/-- `strftime("%Y-%m-%dT%H:%M:%SZ")`. -/
def strftimeIso (t : Instant) : String :=
  dateStr t.days ++ "T" ++ pad2 t.hour ++ ":" ++ pad2 t.minute ++ ":" ++ pad2 t.second ++ "Z"

/-- `datetime.now(timezone.utc).strftime("%Y-%m-%dT%H:%M:%SZ")` (line 15). -/
def current_timestamp (t : Instant) : String :=
  strftimeIso t

/-- `datetime.now(timezone.utc).strftime("%Y-%m-%d")` (line 16). -/
def current_date (t : Instant) : String :=
  dateStr t.days

/-- Line 19: `(now + timedelta(days=1)).replace(hour=12, minute=0, second=0)` formatted. -/
def tomorrow_anchor (t : Instant) : String :=
  strftimeIso (replaceTime (addDays t 1) 12 0 0)

/-- Line 20: `(now + timedelta(days=7)).replace(hour=17, minute=0, second=0)` formatted. -/
def end_of_week_anchor (t : Instant) : String :=
  strftimeIso (replaceTime (addDays t 7) 17 0 0)

/-- Line 21: `(now + timedelta(days=30)).replace(hour=17, minute=0, second=0)` formatted. -/
def end_of_month_anchor (t : Instant) : String :=
  strftimeIso (replaceTime (addDays t 30) 17 0 0)

/-! ## Prompt composition (process_with_openai.py lines 10-130) -/

/-- The four configuration values of the default-due-date option. -/
inductive DueDate where
  | none : DueDate
  | tomorrow : DueDate
  | end_of_week : DueDate
  | end_of_month : DueDate
deriving DecidableEq

/-- A project record as returned by the Vikunja client (`id`, `title`). -/
structure Project where
  id : Int
  title : String

/-- `json.dumps(project_names)` where
`project_names = [{"id": p.get("id"), "name": p.get("title")} for p in projects]`.
Faithful for titles free of JSON-escape characters (quotes, backslashes,
control characters), which is all any theorem instantiates. -/
def pyDumpsProjects (projects : List Project) : String :=
  "[" ++ String.intercalate ", "
    (projects.map (fun p =>
      "\x7b\"id\": " ++ toString p.id ++ ", \"name\": \"" ++ p.title ++ "\"\x7d")) ++ "]"

/-- Lines 26-32: the anchor chosen for the configured policy (empty for `none`,
matching the initial `default_due_date_value = ""`). -/
def default_due_date_value (policy : DueDate) (t : Instant) : String :=
  match policy with
  | .tomorrow => tomorrow_anchor t
  | .end_of_week => end_of_week_anchor t
  | .end_of_month => end_of_month_anchor t
  | .none => ""

/-- Lines 24-40: the default-due-date instruction block (empty when the
policy is `none`). -/
def default_due_date_instructions (policy : DueDate) (t : Instant) : String :=
  if policy = .none then "" else
    "\n        IMPORTANT DEFAULT DUE DATE RULE:\n        - If no specific project or due date is mentioned in the task, use this default due date: "
      ++ default_due_date_value policy t
      ++ "\n        - If a specific project is mentioned, do not set any due date unless the user explicitly mentions one\n        - If a specific due date is mentioned by the user, always use that instead of the default\n        - Even if a recurring task instruction is given, if no due date is mentioned, set it to "
      ++ default_due_date_value policy t
      ++ "\n        "

/-- Lines 43-50: the speech-recognition-correction block (empty when disabled). -/
def voice_correction_instructions (voice : Bool) : String :=
  if voice then
    "\n        SPEECH RECOGNITION CORRECTION:\n        - Task came from voice command - expect speech recognition errors\n        - Correct misheard project names, dates, and common speech-to-text errors\n        - Use context to understand user\x27s true intent\n        "
  else ""

/-- Lines 52-120: the `system` message content.  The f-string is reproduced
verbatim; `{...}` interpolations become appends, `{{`/`}}` become literal
braces.  The two conditional slots mirror Python string truthiness (a block
is interpolated `.strip()`ped when non-empty). -/
def system_content (projects : List Project) (policy : DueDate) (voice : Bool)
    (t : Instant) : String :=
  let ddi := default_due_date_instructions policy t
  let vci := voice_correction_instructions voice
  "\n        You are an assistant that helps create tasks in Vikunja. \n        Given a task description, you will create a JSON payload for the Vikunja API.\n        \n        Available projects: "
  ++ pyDumpsProjects projects
  ++ "\n        \n        DEFAULT DUE DATE RULE:\n        "
  ++ (if ddi ≠ "" then pyStrip ddi else "- No default due date configured")
  ++ "\n        \n        "
  ++ (if vci ≠ "" then pyStrip vci else "")
  ++ "\n        \n        CORE OUTPUT REQUIREMENTS:\n        - Output only valid JSON with these fields (only include optional fields when applicable):\n          * title (string): Main task title (REQUIRED, MUST NOT BE EMPTY)\n          * description (string): Task details (always include, use empty string if none)\n          * project_id (number): Project ID (always required, use 1 if no project specified)\n          * due_date (string, optional): Due date in YYYY-MM-DDTHH:MM:SSZ format\n          * priority (number, optional): Priority level 1-5, only when explicitly mentioned\n          * repeat_after (number, optional): Repeat interval in seconds, only for recurring tasks\n        \n        TASK FORMATTING:\n        - Extract clear, concise titles from task descriptions\n        - Avoid redundant words already implied by project context\n        - Remove date/time information from titles (put in due_date field instead)\n        - Include relevant details in description field\n        \n        DATE HANDLING (Current: "
  ++ current_timestamp t
  ++ "):\n        - Calculate future dates based on current date: "
  ++ current_date t
  ++ "\n        - Use ISO format with \x27Z\x27 timezone: YYYY-MM-DDTHH:MM:SSZ\n        - Default time: 12:00:00 (unless specific time mentioned)\n        - NEVER set past dates - always use future dates for ambiguous references\n        \n        PRIORITY LEVELS (only when explicitly mentioned):\n        - 5: urgent, critical, emergency, ASAP, immediately\n        - 4: important, soon, priority, needs attention\n        - 3: medium priority, when possible, moderately important\n        - 2: low priority, when you have time, not urgent\n        - 1: sometime, eventually, no rush\n        \n        RECURRING TASKS (only when explicitly mentioned):\n        - Daily: 86400 seconds | Weekly: 604800 seconds\n        - Monthly: 2592000 seconds | Yearly: 31536000 seconds\n        - Keywords: daily, weekly, monthly, yearly, every day/week, recurring, repeat\n        \n        EXAMPLES:\n        Input: \"Reminder to pick up groceries tomorrow\"\n        Output: \x7b\"title\": \"Pick up groceries\", \"description\": \"\", \"project_id\": 1, \"due_date\": \"2023-06-09T12:00:00Z\"\x7d\n        \n        Input: \"URGENT: I need to finish the report for work by Friday at 5pm\"\n        Output: \x7b\"title\": \"Finish work report\", \"description\": \"Complete and submit the report\", \"project_id\": 1, \"due_date\": \"2023-06-09T17:00:00Z\", \"priority\": 5\x7d\n        \n        Input: \"Take vitamins daily\"\n        Output: \x7b\"title\": \"Take vitamins\", \"description\": \"\", \"project_id\": 1, \"repeat_after\": 86400\x7d\n        \n        Input: \"Weekly team meeting every Monday at 10am\"\n        Output: \x7b\"title\": \"Team meeting\", \"description\": \"\", \"project_id\": 1, \"due_date\": \"2023-06-12T10:00:00Z\", \"repeat_after\": 604800\x7d\n        \n        Input: \"Call the dentist next Tuesday\" (misheard as \"dentiest\")\n        Output: \x7b\"title\": \"Call the dentist\", \"description\": \"\", \"project_id\": 1, \"due_date\": \"2023-06-13T12:00:00Z\"\x7d\n        \n        Input: \"Buy milk for the grocery project tomorrow at 3\" (unclear time)\n        Output: \x7b\"title\": \"Buy milk\", \"description\": \"\", \"project_id\": 2, \"due_date\": \"2023-06-09T15:00:00Z\"\x7d\n        \n        Input: \"Schedule meeting with client for next Friday\" (no specific time)\n        Output: \x7b\"title\": \"Schedule meeting with client\", \"description\": \"\", \"project_id\": 1, \"due_date\": \"2023-06-16T12:00:00Z\"\x7d\n        "

/-- Lines 122-125: the `user` message content. -/
def user_content (task_description : String) : String :=
  "Create a task with this description (be sure to include a title): " ++ task_description

/-! ## Response extraction and the LLM call (process_with_openai.py lines 137-207) -/

/-- Outcome of the HTTP call to the chat-completion endpoint.  `netFail`
covers `asyncio.TimeoutError`, `aiohttp.ClientConnectorError` and
`aiohttp.ClientError`; `response` carries the HTTP status and the assistant
message content (`result["choices"][0]["message"]["content"]`; the `.get`
chain with defaults, whose failures the blanket `except Exception` also
converts to `None`, is elided). -/
inductive LlmResult where
  | netFail : LlmResult
  | response (status : Nat) (content : String) : LlmResult

/-- Lines 166-190: locate the first `\x7b` and the last `\x7d`, slice, parse,
require a non-empty `title`, and return the sliced string.  `parse` is
`json.loads`; its `none` is `json.JSONDecodeError`.  The `none` results of
`pyContainsKey`/`pyIndexKey` model `TypeError`s on non-dict documents, which
the enclosing blanket `except Exception` (line 205) turns into `None`. -/
def extract_json (parse : String → Option PyJson) (raw : String) : Option String :=
  let start_idx := pyFindChar raw '\x7b'
  let end_idx := pyRfindChar raw '\x7d' + 1
  if 0 ≤ start_idx ∧ start_idx < end_idx then
    let json_str := pySlice raw start_idx end_idx
    match parse json_str with
    | Option.none => Option.none
    | some task_data =>
      match pyContainsKey task_data "title" with
      | Option.none => Option.none
      | some false => Option.none
      | some true =>
        match pyIndexKey task_data "title" with
        | Option.none => Option.none
        | some v => if pyTruthy v then some json_str else Option.none
  else Option.none

/-- Lines 10-207: the guarded LLM call.  The composed prompt is sent to the
collaborator whose behaviour `llm` abstracts; network-level failures and
non-200 statuses yield `None`; a 200 response has its content run through
the extractor.  The prompt-construction region (lines 10-135) is total on
well-typed inputs, so the function's only outputs are `some`/`none`. -/
def process_with_openai (parse : String → Option PyJson) (task_description : String)
    (projects : List Project) (policy : DueDate) (voice : Bool) (t : Instant)
    (llm : LlmResult) : Option String :=
  let _system_prompt := system_content projects policy voice t
  let _user_prompt := user_content task_description
  match llm with
  | .netFail => Option.none
  | .response status content =>
    if status ≠ 200 then Option.none
    else extract_json parse content

/-! ## Orchestrator (vikunja-voice-assistant/__init__.py lines 80-174) -/

/-- A Python exception escaping a collaborator call. -/
inductive PyErr where
  | err (msg : String) : PyErr
deriving DecidableEq

/-- The domain configuration read from `hass.data` (lines 85-91). -/
structure Config where
  vikunja_url : Option String
  vikunja_api_token : Option String
  openai_api_key : Option String
  openai_model : String
  default_due_date : DueDate
  voice_correction : Bool

/-- Python falsiness of an optional string: `None` or the empty string. -/
def pyFalsyOptStr : Option String → Bool
  | Option.none => true
  | some s => s == ""

/-- Line 93: `not all([vikunja_url, vikunja_api_token, openai_api_key])`. -/
def configMissing (cfg : Config) : Bool :=
  pyFalsyOptStr cfg.vikunja_url || pyFalsyOptStr cfg.vikunja_api_token
    || pyFalsyOptStr cfg.openai_api_key

/-- The `(success, message, task_title)` triple returned by `handle_vikunja_task`. -/
structure Outcome where
  success : Bool
  message : String
  task_title : String
deriving DecidableEq

/-- Which collaborators a run invoked. -/
structure Calls where
  getProjects : Bool
  llm : Bool
  addTask : Bool
deriving DecidableEq

def configErrorMsg : String :=
  "Configuration error. Please check your Vikunja and OpenAI settings."

def connectionErrorMsg : String :=
  "Sorry, I couldn\x27t process your task due to a connection error. Please try again later."

def missingTitleMsg : String :=
  "Sorry, I couldn\x27t understand what task you wanted to create. Please try again."

def jsonDecodeErrorMsg : String :=
  "Sorry, there was an error processing your task. Please try again."

def createFailedMsg : String :=
  "Sorry, I couldn\x27t add the task to Vikunja. Please check your Vikunja connection."

def unexpectedErrorMsg : String :=
  "Sorry, an unexpected error occurred. Please try again."

def intentBlankMsg : String :=
  "I couldn\x27t understand what task you wanted to add. Please try again."

/-- Lines 80-146: `handle_vikunja_task`.  Collaborator behaviours are inputs:
`getProjectsRes` is the project fetch (`.error` = the executor call raised),
`llm` the OpenAI call, `addTaskRes` the creation call (`.error` = it raised).
The first component is `.error e` exactly when an exception escapes the
function; the second records which collaborators ran.  Note the project
fetch (line 100) sits outside the `try` that begins at line 119. -/
def handle_vikunja_task (parse : String → Option PyJson) (cfg : Config)
    (getProjectsRes : Except PyErr (List Project)) (llm : LlmResult)
    (addTaskRes : Except PyErr Bool) (t : Instant) (task_description : String) :
    Except PyErr Outcome × Calls :=
  if configMissing cfg then
    (Except.ok ⟨false, configErrorMsg, ""⟩, ⟨false, false, false⟩)
  else
    match getProjectsRes with
    | .error e => (Except.error e, ⟨true, false, false⟩)
    | .ok projects =>
      match process_with_openai parse task_description projects cfg.default_due_date
          cfg.voice_correction t llm with
      | Option.none => (Except.ok ⟨false, connectionErrorMsg, ""⟩, ⟨true, true, false⟩)
      | some openai_response =>
        match parse openai_response with
        | Option.none =>
          -- json.JSONDecodeError branch (lines 141-143)
          (Except.ok ⟨false, jsonDecodeErrorMsg, ""⟩, ⟨true, true, false⟩)
        | some task_data =>
          match pyDictGet task_data "title" with
          | Option.none =>
            -- AttributeError on a non-dict document, caught at line 144
            (Except.ok ⟨false, unexpectedErrorMsg, ""⟩, ⟨true, true, false⟩)
          | some titleVal =>
            if !pyTruthy titleVal then
              (Except.ok ⟨false, missingTitleMsg, ""⟩, ⟨true, true, false⟩)
            else
              match addTaskRes with
              | .error _ =>
                -- caught by `except Exception` at line 144
                (Except.ok ⟨false, unexpectedErrorMsg, ""⟩, ⟨true, true, true⟩)
              | .ok true =>
                (Except.ok ⟨true, "Successfully added task: " ++ pyStr titleVal,
                  pyStr titleVal⟩, ⟨true, true, true⟩)
              | .ok false =>
                (Except.ok ⟨false, createFailedMsg, ""⟩, ⟨true, true, true⟩)

/-- Lines 155-174: `VikunjaAddTaskIntentHandler.async_handle`.  The slot value
is the input string; the result is the speech text set on the response
(`.error` when `handle_vikunja_task` raised through it). -/
def intent_async_handle (parse : String → Option PyJson) (cfg : Config)
    (getProjectsRes : Except PyErr (List Project)) (llm : LlmResult)
    (addTaskRes : Except PyErr Bool) (t : Instant) (task_description : String) :
    Except PyErr String × Calls :=
  if pyStrip task_description = "" then
    (Except.ok intentBlankMsg, ⟨false, false, false⟩)
  else
    match handle_vikunja_task parse cfg getProjectsRes llm addTaskRes t task_description with
    | (.error e, calls) => (Except.error e, calls)
    | (.ok out, calls) => (Except.ok out.message, calls)

/-! ## Entity cache (vikunja_voice_assistant/user_cache.py, not shipped under src/) -/

/-- Modelled from the spec: the `CachedEntitySet` owned by the Entity Cache
Manager (`VikunjaUserCacheManager`, whose module `user_cache.py` is not
present in the sources) — an id-to-display-name mapping, the time of the
last successful refresh, and the in-flight guard. -/
structure CachedEntitySet where
  entities : List (Nat × String)
  last_refreshed_at : Nat
  refresh_in_flight : Bool
deriving DecidableEq

/-- Modelled from the spec: `current_entities()` returns the present snapshot
immediately. -/
def current_entities (st : CachedEntitySet) : List (Nat × String) :=
  st.entities

/-- Modelled from the spec: `refresh(force)`.  If a refresh is already in
flight and `force` is false, return immediately without issuing a fetch
(coalescing).  Otherwise perform the fetch, whose result is the input
`fetchResult` (`none` = any fetch failure): on success atomically replace
the snapshot and update `last_refreshed_at`, returning `true`; on failure
leave the snapshot untouched, returning `false`.  The result triple is
(new state, returned boolean, whether a fetch was issued). -/
def cache_refresh (st : CachedEntitySet) (force : Bool)
    (fetchResult : Option (List (Nat × String))) (now : Nat) :
    CachedEntitySet × Bool × Bool :=
  if st.refresh_in_flight && !force then
    (st, false, false)
  else
    match fetchResult with
    | some m => (⟨m, now, false⟩, true, true)
    | Option.none => ({ st with refresh_in_flight := false }, false, true)

/-! ## URL normalization (config_flow.py lines 31-37) -/

/-- Lines 33-37: strip trailing slashes, then append `/api/v1` unless it is
already the suffix; the result is the stored Vikunja URL. -/
def normalize_vikunja_url (u : String) : String :=
  let base_url := pyRstripSlash u
  if !endsWithStr base_url "/api/v1" then base_url ++ "/api/v1" else base_url

/-! ## Concrete fixtures for witnesses and counterexamples -/

/-- 2023-06-08T09:30:00Z (day 19516 since the epoch). -/
def testInstant : Instant := ⟨19516, 9, 30, 0⟩

def testProjects : List Project := [⟨1, "Inbox"⟩, ⟨2, "Groceries"⟩]

/-- A concrete stand-in for `json.loads`, agreeing with it on the handful of
documents the witnesses and counterexamples feed it (each entry can be
checked against the Python parser by hand). -/
def testParse : String → Option PyJson := fun s =>
  if s = "\x7b\"title\": \"Buy milk\", \"x\": 1\x7d" then
    some (.obj [("title", .str "Buy milk"), ("x", .num 1)])
  else if s = "\x7b\"title\": \" \"\x7d" then
    some (.obj [("title", .str " ")])
  else if s = "\x7b\"title\": \"\"\x7d" then
    some (.obj [("title", .str "")])
  else if s = "\x7b\"description\": \"x\"\x7d" then
    some (.obj [("description", .str "x")])
  else Option.none

/-- A fully populated configuration. -/
def goodConfig : Config :=
  ⟨some "https://vikunja.local/api/v1", some "token", some "key",
    "gpt-4.1-mini", .tomorrow, true⟩

/-! ## Shared helper lemmas -/

theorem sdata_append (a b : String) : (a ++ b).data = a.data ++ b.data := by
  cases a
  cases b
  rfl

theorem sappend_assoc (a b c : String) : a ++ b ++ c = a ++ (b ++ c) := by
  cases a
  cases b
  cases c
  exact congrArg String.mk (List.append_assoc _ _ _)

theorem startsWithL_append_self (p w : List Char) : startsWithL (p ++ w) p = true := by
  induction p with
  | nil => cases w <;> rfl
  | cons a as ih => simp [startsWithL, ih]

theorem startsWithL_cons_inv {l : List Char} {b : Char} {bs : List Char}
    (h : startsWithL l (b :: bs) = true) : ∃ t, l = b :: t ∧ startsWithL t bs = true := by
  cases l with
  | nil => simp [startsWithL] at h
  | cons a as =>
    simp only [startsWithL, Bool.and_eq_true] at h
    exact ⟨as, by rw [eq_of_beq h.1], h.2⟩

theorem any_of_find?_some {α} {p : α → Bool} {l : List α} {x : α}
    (h : l.find? p = some x) : l.any p = true := by
  induction l with
  | nil => simp [List.find?] at h
  | cons a as ih =>
    cases hpa : p a with
    | true => simp [List.any_cons, hpa]
    | false =>
      rw [List.find?] at h
      rw [hpa] at h
      simp [List.any_cons, hpa, ih h]

theorem any_false_of_find?_none {α} {p : α → Bool} {l : List α}
    (h : l.find? p = Option.none) : l.any p = false := by
  induction l with
  | nil => rfl
  | cons a as ih =>
    cases hpa : p a with
    | true =>
      rw [List.find?] at h
      rw [hpa] at h
      simp at h
    | false =>
      rw [List.find?] at h
      rw [hpa] at h
      simp [List.any_cons, hpa, ih h]

/-- Stripping trailing slashes does not change a string that already ends in
`/api/v1` (its last character is `1`). -/
theorem rstrip_idem_of_endsWith (s : String) (h : endsWithStr s "/api/v1" = true) :
    pyRstripSlash s = s := by
  have hA : ("/api/v1" : String).data.reverse = '1' :: ['v', '/', 'i', 'p', 'a', '/'] := rfl
  rw [endsWithStr, hA] at h
  obtain ⟨t, ht, -⟩ := startsWithL_cons_inv h
  unfold pyRstripSlash
  rw [ht, List.dropWhile_cons]
  simp only [show (('1' == '/') = true) = False by simp, if_false]
  rw [← ht, List.reverse_reverse]

theorem endsWith_append (x t : String) : endsWithStr (x ++ t) t = true := by
  rw [endsWithStr, sdata_append, List.reverse_append]
  exact startsWithL_append_self _ _

/-- Any successful extraction returns the bounded substring, and that
substring parses to an object whose `title` entry is truthy. -/
theorem extract_json_spec (parse : String → Option PyJson) (raw : String) :
    extract_json parse raw = Option.none ∨
    ∃ s fields pr, extract_json parse raw = some s ∧ parse s = some (.obj fields) ∧
      fields.find? (fun q => q.1 == "title") = some pr ∧ pyTruthy pr.2 = true := by
  simp only [extract_json]
  split
  · split
    · exact Or.inl rfl
    · rename_i task_data hp
      split
      · exact Or.inl rfl
      · exact Or.inl rfl
      · rename_i ht
        split
        · exact Or.inl rfl
        · rename_i v hi
          split
          · rename_i htr
            cases task_data with
            | obj fields =>
              simp only [pyIndexKey] at hi
              cases hf : fields.find? (fun q => q.1 == "title") with
              | none => rw [hf] at hi; simp at hi
              | some pr =>
                rw [hf] at hi
                simp at hi
                exact Or.inr ⟨_, fields, pr, rfl, hp, hf, by rw [hi]; exact htr⟩
            | null => simp [pyIndexKey] at hi
            | bool b2 => simp [pyIndexKey] at hi
            | num n => simp [pyIndexKey] at hi
            | str s2 => simp [pyIndexKey] at hi
            | arr l => simp [pyIndexKey] at hi
          · exact Or.inl rfl
  · exact Or.inl rfl

/-! ## Claim theorems -/

/-- C1: whenever the reply has a `\x7b`-to-`\x7d` bounded region whose substring
parses to an object carrying a truthy `title` (any other fields permitted and
ignored), the extractor succeeds and returns exactly that bounded substring,
whose parse is that object. -/
theorem c1_extractor_bounded_json (parse : String → Option PyJson) (raw : String)
    (fields : List (String × PyJson)) (v : PyJson)
    (h1 : 0 ≤ pyFindChar raw '\x7b')
    (h2 : pyFindChar raw '\x7b' < pyRfindChar raw '\x7d' + 1)
    (h3 : parse (pySlice raw (pyFindChar raw '\x7b') (pyRfindChar raw '\x7d' + 1))
        = some (.obj fields))
    (h4 : (fields.find? (fun q => q.1 == "title")).map (fun q => q.2) = some v)
    (h5 : pyTruthy v = true) :
    extract_json parse raw
      = some (pySlice raw (pyFindChar raw '\x7b') (pyRfindChar raw '\x7d' + 1)) ∧
    parse (pySlice raw (pyFindChar raw '\x7b') (pyRfindChar raw '\x7d' + 1))
      = some (.obj fields) := by
  refine ⟨?_, h3⟩
  have hcontains : pyContainsKey (.obj fields) "title" = some true := by
    cases hf : fields.find? (fun q => q.1 == "title") with
    | none => rw [hf] at h4; simp at h4
    | some pr => simp [pyContainsKey, any_of_find?_some hf]
  have hindex : pyIndexKey (.obj fields) "title" = some v := by
    simp only [pyIndexKey]
    exact h4
  simp only [extract_json]
  rw [if_pos ⟨h1, h2⟩, h3]
  dsimp only
  rw [hcontains]
  dsimp only
  rw [hindex]
  dsimp only
  rw [if_pos h5]

theorem c1_extractor_bounded_json_witness :
    extract_json testParse "Sure! \x7b\"title\": \"Buy milk\", \"x\": 1\x7d done"
      = some "\x7b\"title\": \"Buy milk\", \"x\": 1\x7d" ∧
    testParse "\x7b\"title\": \"Buy milk\", \"x\": 1\x7d"
      = some (.obj [("title", .str "Buy milk"), ("x", .num 1)]) := by
  have h := c1_extractor_bounded_json testParse
    "Sure! \x7b\"title\": \"Buy milk\", \"x\": 1\x7d done"
    [("title", .str "Buy milk"), ("x", .num 1)] (.str "Buy milk")
    (by decide) (by decide) rfl rfl rfl
  exact h

/-- C10: for every URL string accepted by the configuration flow, the stored
Vikunja URL (trailing slashes stripped, `/api/v1` appended unless already the
suffix) ends with `/api/v1`, and the normalization is idempotent. -/
theorem c10_url_normalized_and_idempotent (u : String) :
    endsWithStr (normalize_vikunja_url u) "/api/v1" = true ∧
    normalize_vikunja_url (normalize_vikunja_url u) = normalize_vikunja_url u := by
  cases hb : endsWithStr (pyRstripSlash u) "/api/v1" with
  | true =>
    have h1 : normalize_vikunja_url u = pyRstripSlash u := by
      simp [normalize_vikunja_url, hb]
    refine ⟨by rw [h1]; exact hb, ?_⟩
    rw [h1]
    have h2 := rstrip_idem_of_endsWith _ hb
    simp [normalize_vikunja_url, h2, hb]
  | false =>
    have h1 : normalize_vikunja_url u = pyRstripSlash u ++ "/api/v1" := by
      simp [normalize_vikunja_url, hb]
    have he : endsWithStr (pyRstripSlash u ++ "/api/v1") "/api/v1" = true :=
      endsWith_append _ _
    refine ⟨by rw [h1]; exact he, ?_⟩
    rw [h1]
    have h2 := rstrip_idem_of_endsWith _ he
    simp [normalize_vikunja_url, h2, he]

/-- C7: for every instant, the temporal anchors are the instant's day shifted
by the fixed offsets (+1, +7, +30 days) with the fixed wall-clock components
(12:00:00, 17:00:00, 17:00:00), all rendered in the
`YYYY-MM-DDTHH:MM:SSZ` layout; as pure functions of the instant they are
identical across repeated computation at the same instant. -/
theorem c7_temporal_anchors (t : Instant) :
    tomorrow_anchor t = dateStr (t.days + 1) ++ "T12:00:00Z" ∧
    end_of_week_anchor t = dateStr (t.days + 7) ++ "T17:00:00Z" ∧
    end_of_month_anchor t = dateStr (t.days + 30) ++ "T17:00:00Z" := by
  refine ⟨?_, ?_, ?_⟩ <;>
    · simp only [tomorrow_anchor, end_of_week_anchor, end_of_month_anchor,
        strftimeIso, replaceTime, addDays, sappend_assoc]
      congr 1

/-- C2 counterexample: a reply whose JSON object carries a whitespace-only
(blank but non-empty) `title` does NOT fail extraction — the non-empty string
`" "` is truthy in Python — and the resolution does issue the task-creation
call, contradicting the claim for blank titles. -/
theorem c2_counterexample_blank_title_accepted :
    pyStrip " " = "" ∧
    testParse "\x7b\"title\": \" \"\x7d" = some (.obj [("title", .str " ")]) ∧
    extract_json testParse "\x7b\"title\": \" \"\x7d" = some "\x7b\"title\": \" \"\x7d" ∧
    (handle_vikunja_task testParse goodConfig (.ok testProjects)
        (.response 200 "\x7b\"title\": \" \"\x7d") (.ok true) testInstant
        "add milk to the list").2.addTask = true :=
  ⟨rfl, rfl, rfl, rfl⟩

/-- C2 (amended): extraction fails when the reply has no `\x7b`/`\x7d` bounded
region, or when the extracted object's `title` is absent or empty (Python
falsy) — though not when it is merely whitespace — and whenever the LLM stage
yields a 200 reply whose extraction fails, no task-creation call is issued. -/
theorem c2_amended_extraction_failures (parse : String → Option PyJson) (raw : String) :
    (¬(0 ≤ pyFindChar raw '\x7b' ∧ pyFindChar raw '\x7b' < pyRfindChar raw '\x7d' + 1) →
      extract_json parse raw = Option.none) ∧
    (∀ fields,
      parse (pySlice raw (pyFindChar raw '\x7b') (pyRfindChar raw '\x7d' + 1))
        = some (.obj fields) →
      (fields.find? (fun q => q.1 == "title") = Option.none ∨
        ∃ pr, fields.find? (fun q => q.1 == "title") = some pr ∧ pyTruthy pr.2 = false) →
      extract_json parse raw = Option.none) ∧
    (∀ cfg projects addTaskRes t desc,
      extract_json parse raw = Option.none →
      (handle_vikunja_task parse cfg (.ok projects) (.response 200 raw)
        addTaskRes t desc).2.addTask = false) := by
  refine ⟨?_, ?_, ?_⟩
  · intro h
    simp only [extract_json]
    rw [if_neg h]
  · intro fields hparse hbad
    by_cases hcond : 0 ≤ pyFindChar raw '\x7b' ∧
        pyFindChar raw '\x7b' < pyRfindChar raw '\x7d' + 1
    · simp only [extract_json]
      rw [if_pos hcond, hparse]
      dsimp only
      rcases hbad with hnone | ⟨pr, hpr, hfalse⟩
      · have hc : pyContainsKey (.obj fields) "title" = some false := by
          simp [pyContainsKey, any_false_of_find?_none hnone]
        rw [hc]
      · have hc : pyContainsKey (.obj fields) "title" = some true := by
          simp [pyContainsKey, any_of_find?_some hpr]
        rw [hc]
        dsimp only
        have hidx : pyIndexKey (.obj fields) "title" = some pr.2 := by
          simp [pyIndexKey, hpr]
        rw [hidx]
        dsimp only
        rw [if_neg (by simp [hfalse])]
    · simp only [extract_json]
      rw [if_neg hcond]
  · intro cfg projects addTaskRes t desc hex
    by_cases hc : configMissing cfg = true
    · simp [handle_vikunja_task, hc]
    · simp only [handle_vikunja_task, process_with_openai]
      rw [if_neg hc]
      simp [hex]

theorem c2_amended_extraction_failures_witness :
    extract_json testParse "there is no json here" = Option.none ∧
    testParse "\x7b\"title\": \"\"\x7d" = some (.obj [("title", .str "")]) ∧
    extract_json testParse "\x7b\"title\": \"\"\x7d" = Option.none ∧
    (handle_vikunja_task testParse goodConfig (.ok testProjects)
        (.response 200 "there is no json here") (.ok true) testInstant
        "add milk").2.addTask = false := by
  refine ⟨?_, rfl, ?_, ?_⟩
  · exact (c2_amended_extraction_failures testParse "there is no json here").1 (by decide)
  · exact (c2_amended_extraction_failures testParse "\x7b\"title\": \"\"\x7d").2.1
      [("title", .str "")] rfl (Or.inr ⟨("title", .str ""), rfl, rfl⟩)
  · exact (c2_amended_extraction_failures testParse "there is no json here").2.2
      goodConfig testProjects (.ok true) testInstant "add milk"
      ((c2_amended_extraction_failures testParse "there is no json here").1 (by decide))

/-- C3 counterexample: a successful LLM reply containing no JSON
(`NoJsonFound`) produces the SAME generic connection-error "try again later"
message as an outright LLM network failure — not a distinct "could not
understand the task" message, contradicting the claim. -/
theorem c3_counterexample_nojson_message :
    (handle_vikunja_task testParse goodConfig (.ok testProjects)
        (.response 200 "Sorry, I can\x27t help with that.") (.ok true) testInstant
        "a task").1 = Except.ok ⟨false, connectionErrorMsg, ""⟩ ∧
    (handle_vikunja_task testParse goodConfig (.ok testProjects)
        .netFail (.ok true) testInstant "a task").1
      = Except.ok ⟨false, connectionErrorMsg, ""⟩ ∧
    connectionErrorMsg ≠ missingTitleMsg :=
  ⟨rfl, rfl, by decide⟩

/-- C3 (amended): a reply in which no JSON is found is reported with the same
generic connection-error message as an LLM timeout/connection/non-2xx
failure; the distinct "could not understand" message is produced only by the
orchestrator's own title validation, not on the `NoJsonFound` path. -/
theorem c3_amended_nojson_collapses_to_connection_error
    (parse : String → Option PyJson) (cfg : Config) (projects : List Project)
    (addTaskRes : Except PyErr Bool) (t : Instant) (desc content : String)
    (hcfg : configMissing cfg = false)
    (hex : extract_json parse content = Option.none) :
    (handle_vikunja_task parse cfg (.ok projects) (.response 200 content)
        addTaskRes t desc).1 = Except.ok ⟨false, connectionErrorMsg, ""⟩ ∧
    (handle_vikunja_task parse cfg (.ok projects) .netFail addTaskRes t desc).1
      = Except.ok ⟨false, connectionErrorMsg, ""⟩ := by
  constructor
  · simp only [handle_vikunja_task, process_with_openai]
    rw [if_neg (by simp [hcfg])]
    simp [hex]
  · simp only [handle_vikunja_task, process_with_openai]
    rw [if_neg (by simp [hcfg])]

theorem c3_amended_nojson_collapses_to_connection_error_witness :
    (handle_vikunja_task testParse goodConfig (.ok testProjects)
        (.response 200 "no braces at all") (.ok true) testInstant "walk the dog").1
      = Except.ok ⟨false, connectionErrorMsg, ""⟩ ∧
    (handle_vikunja_task testParse goodConfig (.ok testProjects)
        .netFail (.ok true) testInstant "walk the dog").1
      = Except.ok ⟨false, connectionErrorMsg, ""⟩ :=
  c3_amended_nojson_collapses_to_connection_error testParse goodConfig testProjects
    (.ok true) testInstant "walk the dog" "no braces at all" rfl rfl

/-- C4: a blank or whitespace-only task description makes the intent handler
answer with the fixed "could not understand" speech and invoke no
collaborator (no project fetch, no LLM call, no task creation). -/
theorem c4_blank_input_short_circuits (parse : String → Option PyJson) (cfg : Config)
    (getProjectsRes : Except PyErr (List Project)) (llm : LlmResult)
    (addTaskRes : Except PyErr Bool) (t : Instant) (task_description : String)
    (h : pyStrip task_description = "") :
    intent_async_handle parse cfg getProjectsRes llm addTaskRes t task_description
      = (Except.ok intentBlankMsg, ⟨false, false, false⟩) := by
  simp [intent_async_handle, h]

theorem c4_blank_input_short_circuits_witness :
    pyStrip "   " = "" ∧
    intent_async_handle testParse goodConfig (.ok testProjects) .netFail (.ok true)
      testInstant "   " = (Except.ok intentBlankMsg, ⟨false, false, false⟩) :=
  ⟨rfl, c4_blank_input_short_circuits testParse goodConfig (.ok testProjects) .netFail
    (.ok true) testInstant "   " rfl⟩

/-- C5: a refresh that is actually performed and fails leaves
`current_entities()` unchanged and returns false; one that succeeds replaces
the snapshot with the fetched mapping and returns true; a non-forced refresh
issued while one is in flight returns immediately without issuing a fetch. -/
theorem c5_cache_refresh_contract (st : CachedEntitySet) (force : Bool)
    (fetchResult : Option (List (Nat × String))) (now : Nat) :
    (st.refresh_in_flight = true →
      cache_refresh st false fetchResult now = (st, false, false)) ∧
    ((st.refresh_in_flight && !force) = false →
      (fetchResult = Option.none →
        current_entities (cache_refresh st force fetchResult now).1 = current_entities st ∧
        (cache_refresh st force fetchResult now).2.1 = false) ∧
      (∀ m, fetchResult = some m →
        current_entities (cache_refresh st force fetchResult now).1 = m ∧
        (cache_refresh st force fetchResult now).2.1 = true)) := by
  refine ⟨?_, ?_⟩
  · intro hf
    simp [cache_refresh, hf]
  · intro hperf
    refine ⟨?_, ?_⟩
    · intro hfail
      simp [cache_refresh, hperf, hfail, current_entities]
    · intro m hok
      simp [cache_refresh, hperf, hok, current_entities]

theorem c5_cache_refresh_contract_witness :
    current_entities (cache_refresh ⟨[(1, "alice")], 5, false⟩ false Option.none 9).1
        = [(1, "alice")] ∧
    (cache_refresh ⟨[(1, "alice")], 5, false⟩ false Option.none 9).2.1 = false ∧
    current_entities (cache_refresh ⟨[(1, "alice")], 5, false⟩ false (some [(2, "bob")]) 9).1
        = [(2, "bob")] ∧
    (cache_refresh ⟨[(1, "alice")], 5, false⟩ false (some [(2, "bob")]) 9).2.1 = true ∧
    cache_refresh ⟨[(1, "alice")], 5, true⟩ false (some [(2, "bob")]) 9
        = (⟨[(1, "alice")], 5, true⟩, false, false) := by
  have h1 := (c5_cache_refresh_contract ⟨[(1, "alice")], 5, false⟩ false Option.none 9).2
    (by decide)
  have h2 := (c5_cache_refresh_contract ⟨[(1, "alice")], 5, false⟩ false
    (some [(2, "bob")]) 9).2 (by decide)
  have h3 := (c5_cache_refresh_contract ⟨[(1, "alice")], 5, true⟩ false
    (some [(2, "bob")]) 9).1 rfl
  exact ⟨(h1.1 rfl).1, (h1.1 rfl).2, (h2.2 _ rfl).1, (h2.2 _ rfl).2, h3⟩

/-- C9: `process_with_openai` returns either `None` or a string that parses
to an object with a truthy `title` (every exception inside the guarded
region is converted to `None` by the blanket handlers, modelled by the
`Option` result); consequently, when its output is non-`None`, the
orchestrator always reaches the task-creation call — its JSON-decode-error
branch and missing-title branch are unreachable on that input. -/
theorem c9_process_output_always_valid (parse : String → Option PyJson)
    (cfg : Config) (projects : List Project) (llm : LlmResult)
    (addTaskRes : Except PyErr Bool) (t : Instant) (desc : String) :
    (process_with_openai parse desc projects cfg.default_due_date
        cfg.voice_correction t llm = Option.none ∨
      ∃ s fields pr,
        process_with_openai parse desc projects cfg.default_due_date
            cfg.voice_correction t llm = some s ∧
        parse s = some (.obj fields) ∧
        fields.find? (fun q => q.1 == "title") = some pr ∧
        pyTruthy pr.2 = true) ∧
    (configMissing cfg = false →
      process_with_openai parse desc projects cfg.default_due_date
          cfg.voice_correction t llm ≠ Option.none →
      (handle_vikunja_task parse cfg (.ok projects) llm addTaskRes t desc).2.addTask
        = true) := by
  have hmain : process_with_openai parse desc projects cfg.default_due_date
      cfg.voice_correction t llm = Option.none ∨
      ∃ s fields pr,
        process_with_openai parse desc projects cfg.default_due_date
            cfg.voice_correction t llm = some s ∧
        parse s = some (.obj fields) ∧
        fields.find? (fun q => q.1 == "title") = some pr ∧
        pyTruthy pr.2 = true := by
    cases llm with
    | netFail => exact Or.inl rfl
    | response status content =>
      by_cases hs : status ≠ 200
      · exact Or.inl (by simp [process_with_openai, hs])
      · have hpr : process_with_openai parse desc projects cfg.default_due_date
            cfg.voice_correction t (.response status content)
            = extract_json parse content := by
          simp [process_with_openai, hs]
        rcases extract_json_spec parse content with hnone | ⟨s, fields, pr, hsome, hp2, hf, ht⟩
        · exact Or.inl (hpr.trans hnone)
        · exact Or.inr ⟨s, fields, pr, hpr.trans hsome, hp2, hf, ht⟩
  refine ⟨hmain, ?_⟩
  intro hcfg hne
  rcases hmain with hnone | ⟨s, fields, pr, hsome, hp2, hf, ht⟩
  · exact absurd hnone hne
  · simp only [handle_vikunja_task]
    rw [if_neg (by simp [hcfg])]
    simp only [hsome, hp2]
    have hg : pyDictGet (.obj fields) "title"
        = some ((fields.find? (fun q => q.1 == "title")).elim PyJson.null (fun q => q.2)) :=
      rfl
    rw [hg, hf]
    simp only [Option.elim]
    rw [if_neg (by simp [ht])]
    cases addTaskRes with
    | error e => rfl
    | ok b => cases b with
      | true => rfl
      | false => rfl

theorem c9_process_output_always_valid_witness :
    process_with_openai testParse "buy milk" testProjects DueDate.tomorrow true
        testInstant (.response 200 "\x7b\"title\": \"Buy milk\", \"x\": 1\x7d")
      = some "\x7b\"title\": \"Buy milk\", \"x\": 1\x7d" ∧
    (handle_vikunja_task testParse goodConfig (.ok testProjects)
        (.response 200 "\x7b\"title\": \"Buy milk\", \"x\": 1\x7d") (.ok true)
        testInstant "buy milk").2.addTask = true := by
  refine ⟨rfl, ?_⟩
  exact (c9_process_output_always_valid testParse goodConfig testProjects
    (.response 200 "\x7b\"title\": \"Buy milk\", \"x\": 1\x7d") (.ok true)
    testInstant "buy milk").2 rfl (by decide)

set_option maxRecDepth 200000 in
set_option maxHeartbeats 2000000 in
/-- C8: the composed system prompt contains exactly one default-due-date
instruction block exactly when the policy is `tomorrow`, `end_of_week` or
`end_of_month` — and that block embeds the anchor matching the policy —
and no such block when the policy is `none`; independently, the
speech-recognition-correction block is present exactly when the
voice-correction flag is enabled. -/
theorem c8_prompt_instruction_blocks (policy : DueDate) (voice : Bool) :
    countOccurS "IMPORTANT DEFAULT DUE DATE RULE:"
        (system_content testProjects policy voice testInstant)
      = (if policy = .none then 0 else 1) ∧
    (policy ≠ .none →
      containsSub (system_content testProjects policy voice testInstant)
        ("use this default due date: " ++ default_due_date_value policy testInstant)
        = true) ∧
    countOccurS "SPEECH RECOGNITION CORRECTION:"
        (system_content testProjects policy voice testInstant)
      = (if voice then 1 else 0) := by
  cases policy <;> cases voice <;>
    exact ⟨by decide, fun h => by first | exact absurd rfl h | decide, by decide⟩

set_option maxRecDepth 200000 in
set_option maxHeartbeats 2000000 in
theorem c8_prompt_instruction_blocks_witness :
    countOccurS "IMPORTANT DEFAULT DUE DATE RULE:"
        (system_content testProjects DueDate.tomorrow true testInstant) = 1 ∧
    containsSub (system_content testProjects DueDate.tomorrow true testInstant)
        ("use this default due date: "
          ++ default_due_date_value DueDate.tomorrow testInstant) = true ∧
    countOccurS "SPEECH RECOGNITION CORRECTION:"
        (system_content testProjects DueDate.tomorrow true testInstant) = 1 :=
  ⟨(c8_prompt_instruction_blocks DueDate.tomorrow true).1,
    (c8_prompt_instruction_blocks DueDate.tomorrow true).2.1 (by decide),
    (c8_prompt_instruction_blocks DueDate.tomorrow true).2.2⟩

end VVA
